import Mathlib

/-!
Shallow embedding of `src_python/main.py` of the taxicoop repository
(a GRASP heuristic for a dial-a-ride problem with pooling), together
with theorems settling the specification claims about it.

Times and coordinates are modelled as rationals (`ℚ`): every comparison the
code performs on them (equality with zero, tuple equality, order) is exact,
so the rational model is faithful for those observations.  The externally
defined `travel_time` function (module `utils`, not part of the sources)
is kept as an explicit parameter `tt`.
-/

namespace Taxicoop

/-! ## Definitions -/

/-- One parsed CSV row of the trip-record file, after the `datetime` and
`float` conversions in `read_dataset`: pickup time in seconds since
midnight, pickup and dropoff coordinates `(longitude, latitude)`. -/
structure Row where
  PU_datetime : ℚ
  PU_coordinates : ℚ × ℚ
  DO_coordinates : ℚ × ℚ
deriving DecidableEq, Repr

/-- A request record as assembled by `read_dataset`:
`[(PU_datetime - time_window*60, PU_datetime), (DO_datetime, DO_datetime + time_window*60),
PU_coordinates, DO_coordinates]`. -/
structure Req where
  PU_window : ℚ × ℚ
  DO_window : ℚ × ℚ
  PU_coordinates : ℚ × ℚ
  DO_coordinates : ℚ × ℚ
deriving DecidableEq, Repr

/-- The dropoff time computed by `read_dataset` (line 116):
`DO_datetime = PU_datetime + travel_time(PU_coordinates, DO_coordinates)`. -/
def DO_datetime (tt : ℚ × ℚ → ℚ × ℚ → ℚ) (r : Row) : ℚ :=
  r.PU_datetime + tt r.PU_coordinates r.DO_coordinates

/-- The `request` list built for a row (lines 118-122 of `main.py`). -/
def mkRequest (time_window : ℚ) (tt : ℚ × ℚ → ℚ × ℚ → ℚ) (r : Row) : Req :=
  { PU_window := (r.PU_datetime - time_window * 60, r.PU_datetime)
    DO_window := (DO_datetime tt r, DO_datetime tt r + time_window * 60)
    PU_coordinates := r.PU_coordinates
    DO_coordinates := r.DO_coordinates }

/-- Line 125: `null_coordinates = (0 in PU_coordinates) or (0 in DO_coordinates)`. -/
def null_coordinates (r : Row) : Bool :=
  (r.PU_coordinates.1 == 0 || r.PU_coordinates.2 == 0)
    || (r.DO_coordinates.1 == 0 || r.DO_coordinates.2 == 0)

/-- Line 126: `coordinates_too_far = DO_datetime - PU_datetime > 12*3600`. -/
def coordinates_too_far (tt : ℚ × ℚ → ℚ × ℚ → ℚ) (r : Row) : Bool :=
  DO_datetime tt r - r.PU_datetime > 12 * 3600

/-- Line 127: `same_DO_PU_coordinates = PU_coordinates == DO_coordinates`. -/
def same_DO_PU_coordinates (r : Row) : Bool :=
  r.PU_coordinates == r.DO_coordinates

/-- The filter of line 128:
`if not null_coordinates and not coordinates_too_far and not same_DO_PU_coordinates`. -/
def keepRow (tt : ℚ × ℚ → ℚ × ℚ → ℚ) (r : Row) : Bool :=
  !null_coordinates r && !coordinates_too_far tt r && !same_DO_PU_coordinates r

/-- The reader loop of `read_dataset` (lines 105-129): walk the rows in
order, stop as soon as `i >= size` (so exactly the first `size` rows are
examined, kept or not), and append `mkRequest` for every row passing the
filter. -/
def readLoop (time_window : ℚ) (tt : ℚ × ℚ → ℚ × ℚ → ℚ) :
    List Row → ℕ → List Req
  | _, 0 => []
  | [], _ + 1 => []
  | r :: rs, n + 1 =>
    if keepRow tt r then mkRequest time_window tt r :: readLoop time_window tt rs n
    else readLoop time_window tt rs n

/-- The comparison key of line 132, `sorted(dataset, key=lambda x: x[0][0])`:
compare the starts of the pickup windows. -/
def byPUStart (a b : Req) : Bool :=
  a.PU_window.1 ≤ b.PU_window.1

/-- `read_dataset` on already-parsed rows: run the filtering loop over the
first `size` rows, then sort the kept requests by pickup-window start
(Python's `sorted` is a stable merge sort; modelled by `List.mergeSort`). -/
def read_dataset (time_window : ℚ) (tt : ℚ × ℚ → ℚ × ℚ → ℚ)
    (rows : List Row) (size : ℕ) : List Req :=
  (readLoop time_window tt rows size).mergeSort byPUStart

/-! ### GRASP driver (`run_GRASP_heuristic`, lines 156-219)

Each completed loop iteration is abstracted by the `compute_obj` of the
solution it produces (after construction, local search and — when an elite
already exists — path relinking and the second local search).  A run is
given the list `objs` of those objectives in order; when the list is
exhausted while the `while` condition still holds, the `SIGALRM`
`RuntimeError` of `main` fires (the wall-clock interrupt).  Solutions are
abstracted to their objective value, which is the only observation the
driver makes of them. -/

/-- Python exceptions observable in the modelled fragments. -/
inductive PyErr where
  | nameError
  | attributeError
  | unboundLocalError
  | zeroDivisionError
  | statisticsError
  | valueError
deriving DecidableEq, Repr

/-- The local state of `run_GRASP_heuristic`:
`elite` is `elite_solution` (abstracted to its `compute_obj`; `none` models
the Python `None`), `elite_obj` is the variable of line 160 — initialised
to `0` and never reassigned anywhere in the function — `iters` is
`GRASP_iterations`, and `lastSol` is the current binding of the loop-local
variable `solution` (`none` models "not yet assigned"). -/
structure GState where
  elite : Option ℕ
  elite_obj : ℕ
  iters : ℕ
  lastSol : Option ℕ
deriving DecidableEq, Repr

/-- Lines 159-161: `elite_solution = None; elite_obj = 0; GRASP_iterations = 0`. -/
def initGState : GState := ⟨none, 0, 0, none⟩

/-- One completed body of the `while` loop, producing a solution whose final
`compute_obj` is `o` (lines 166-208).  With an elite present (lines
186-203): promote iff `solution.compute_obj > elite_obj` — the stale
variable, not the elite's objective — then `GRASP_iterations += 1`.
Without an elite (lines 204-205): promote unconditionally, no increment. -/
def graspStep (s : GState) (o : ℕ) : GState :=
  match s.elite with
  | some _ =>
    if o > s.elite_obj then ⟨some o, s.elite_obj, s.iters + 1, some o⟩
    else ⟨s.elite, s.elite_obj, s.iters + 1, some o⟩
  | none => ⟨some o, s.elite_obj, s.iters, some o⟩

/-- The `while nb_requests - elite_obj is not 0` loop (line 165; on the
small integers involved `is not 0` behaves as `!= 0`).  The returned `Bool`
is `true` when the loop exited because its condition became false, and
`false` when the iteration supply ran out first — i.e. the time-budget
`RuntimeError` interrupts the next iteration. -/
def graspLoop (nb_requests : ℤ) : GState → List ℕ → GState × Bool
  | s, [] => (s, nb_requests - (s.elite_obj : ℤ) = 0)
  | s, o :: os =>
    if nb_requests - (s.elite_obj : ℤ) ≠ 0 then graspLoop nb_requests (graspStep s o) os
    else (s, true)

/-- `run_GRASP_heuristic`: run the loop; on the interrupt path execute the
`except (RuntimeError, StopIteration)` handler of lines 210-213, which
evaluates `solution.compute_obj > elite_solution.compute_obj` —
`NameError` if `solution` was never bound, `AttributeError` if
`elite_solution` is still `None` — and finally build `specs` (lines
215-218), whose line 217 reads `time_elapsed_it`, a variable bound only at
line 208, i.e. only if some iteration completed (`UnboundLocalError`
otherwise).  `interruptSol` is the binding of `solution` at the moment the
interrupt fires, when the interrupted iteration has already rebound it
(line 168); otherwise the variable still holds the previous iteration's
solution.  The result is `(elite_solution, GRASP_iterations)` with
solutions abstracted to objectives. -/
def run_GRASP_heuristic (nb_requests : ℤ) (objs : List ℕ)
    (interruptSol : Option ℕ) : Except PyErr (Option ℕ × ℕ) :=
  let r := graspLoop nb_requests initGState objs
  let s := r.1
  if r.2 then
    if s.lastSol.isSome then .ok (s.elite, s.iters)
    else .error .unboundLocalError
  else
    match (match interruptSol with | some o => some o | none => s.lastSol), s.elite with
    | none, _ => .error .nameError
    | some _, none => .error .attributeError
    | some so, some eo =>
      let elite := if so > eo then so else eo
      if s.lastSol.isSome then .ok (some elite, s.iters)
      else .error .unboundLocalError

/-! ### `setup` (lines 20-68): argparse defaults -/

/-- The IEEE-754 double closest to the literal `0.8` (Python floats are
doubles): `3602879701896397 / 2^52`. -/
def float_0_8 : ℚ := 3602879701896397 / 4503599627370496

/-- The IEEE-754 double closest to `0.1`: `3602879701896397 / 2^55`. -/
def float_0_1 : ℚ := 3602879701896397 / 36028797018963968

/-- The IEEE-754 double closest to `0.2`: `3602879701896397 / 2^54`. -/
def float_0_2 : ℚ := 3602879701896397 / 18014398509481984

/-- The configuration record assembled by `setup`. -/
structure Args where
  time_limit : ℤ
  size : Option ℤ
  time_window : ℤ
  timeframe : ℤ
  speed : ℤ
  capacity : ℤ
  alpha : ℚ
  beta : ℚ
  limit_RCL : ℚ
  num_GRASP : ℤ
  num_local_search : ℤ
  insertion_method : String
  nb_attempts_insert : ℤ
  nb_swap : ℚ
deriving DecidableEq, Repr

/-- The default configuration produced by `setup` when no option is given
on the command line (the `default=` values of lines 26-58; `--alpha`
defaults to the float literal `0.8`, documented there as "Customer are
paying less than an individual ride times alpha"). -/
def setup_defaults : Args :=
  { time_limit := 30
    size := none
    time_window := 15
    timeframe := 1000
    speed := 40
    capacity := 2
    alpha := float_0_8
    beta := float_0_1
    limit_RCL := float_0_2
    num_GRASP := 10
    num_local_search := 10
    insertion_method := "IA"
    nb_attempts_insert := 5
    nb_swap := float_0_1 }

/-! ### `print_stats` (lines 237-310)

The function is modelled as the sequence of its fallible computations, in
source order, over the inputs it actually reads: the objective and request
count of the best solution, the `specs` record, the initial objectives and
the per-request statistic lists produced by the solution object.  Python's
`statistics.mean` raises `StatisticsError` on an empty list and
`statistics.stdev` on fewer than two data points; `max`/`min` raise
`ValueError` on an empty sequence; `/` raises `ZeroDivisionError` on a
zero divisor.  Printing itself is effect-free for our purposes; only the
computed values and the exceptions are modelled, and the function returns
the key/value pairs appended to the `stats` dictionary. -/

/-- `statistics.mean`. -/
def pymean (xs : List ℚ) : Except PyErr ℚ :=
  match xs with
  | [] => .error .statisticsError
  | x :: r => .ok ((x :: r).sum / (x :: r).length)

/-- `statistics.stdev`: defined for at least two data points.  Its value is
the square root of the sample variance; only the sample variance is
carried, since no modelled computation observes the value (it is only
printed, never stored in `stats`). -/
def pystdev (xs : List ℚ) : Except PyErr ℚ :=
  match xs with
  | x :: y :: r =>
    let l := x :: y :: r
    let m := l.sum / l.length
    .ok ((l.map (fun v => (v - m) ^ 2)).sum / ((l.length : ℚ) - 1))
  | _ => .error .statisticsError

/-- Python `max` on a nonempty list. -/
def pymax (xs : List ℚ) : Except PyErr ℚ :=
  match xs with
  | [] => .error .valueError
  | x :: r => .ok (r.foldl max x)

/-- Python `min` on a nonempty list. -/
def pymin (xs : List ℚ) : Except PyErr ℚ :=
  match xs with
  | [] => .error .valueError
  | x :: r => .ok (r.foldl min x)

/-- Python `/`. -/
def pydiv (a b : ℚ) : Except PyErr ℚ :=
  if b = 0 then .error .zeroDivisionError else .ok (a / b)

/-- The inputs `print_stats` reads from its arguments: `solution.nb_requests`,
`solution.compute_obj`, `specs`, `initial_objs`, and the statistic lists
unpacked from `solution.all_individual_stats` / `solution.global_stats`
(lines 243-246). -/
structure StatsInput where
  nb_requests : ℕ
  obj : ℕ
  specs_time : ℚ × ℚ
  specs_iterations : ℕ
  initial_objs : List ℚ
  nb_clients : List ℚ
  delays : List ℚ
  delays_per : List ℚ
  savings_per : List ℚ
  earlier_starts : List ℚ
  earlier_starts_per : List ℚ
deriving Repr

/-- `print_stats`, as the ordered sequence of its fallible computations
(line numbers in comments), returning the `(key, value)` pairs appended to
`stats` at lines 287-309.  The division of line 283 sits inside
`try/except ZeroDivisionError` (lines 282-285) and therefore never
propagates; the division of line 289 is unguarded. -/
def print_stats (inp : StatsInput) : Except PyErr (List (String × ℚ)) := do
  let _pooling ← pydiv ((inp.obj : ℚ) * 100) (inp.nb_requests : ℚ)     -- line 250
  let av_clients ← pymean inp.nb_clients                               -- line 255
  let max_clients ← pymax inp.nb_clients                               -- line 256
  let mean_init ← pymean inp.initial_objs                              -- line 257
  let av_init ← pydiv (mean_init * 100) (inp.nb_requests : ℚ)          -- line 257
  let av_delay ← pymean inp.delays                                     -- line 261
  let av_delay_per ← pymean inp.delays_per                             -- line 261
  let std_delay ← pystdev inp.delays                                   -- line 262
  let max_delay ← pymax inp.delays                                     -- line 263
  let max_delay_per ← pymax inp.delays_per                             -- line 263
  let min_delay ← pymin inp.delays                                     -- line 264
  let min_delay_per ← pymin inp.delays_per                             -- line 264
  let av_saving ← pymean inp.savings_per                               -- line 269
  let max_saving ← pymax inp.savings_per                               -- line 270
  let min_saving ← pymin inp.savings_per                               -- line 271
  let av_adv ← pymean inp.earlier_starts                               -- line 275
  let av_adv_per ← pymean inp.earlier_starts_per                       -- line 275
  let std_adv ← pystdev inp.earlier_starts                             -- line 276
  let max_adv ← pymax inp.earlier_starts                               -- line 277
  let max_adv_per ← pymax inp.earlier_starts_per                       -- line 277
  let min_adv ← pymin inp.earlier_starts                               -- line 278
  let min_adv_per ← pymin inp.earlier_starts_per                       -- line 278
  -- lines 282-285: try: print(round(time[1],2) / iterations)
  -- except ZeroDivisionError: print("xxx") — fully guarded, never raises
  let _guarded : ℚ :=
    if inp.specs_iterations = 0 then 0
    else inp.specs_time.2 / (inp.specs_iterations : ℚ)
  let pooling2 ← pydiv ((inp.obj : ℚ) * 100) (inp.nb_requests : ℚ)     -- line 287
  let av_time_it ← pydiv inp.specs_time.2 (inp.specs_iterations : ℚ)   -- line 289, unguarded
  pure [("pooling", pooling2),
        ("GRASP iterations", (inp.specs_iterations : ℚ)),
        ("av time it", av_time_it),
        ("av nb clients taxi", av_clients),
        ("max nb clients 1 taxi", max_clients),
        ("av init obj", av_init),
        ("av delay sec", av_delay),
        ("av delay per", av_delay_per),
        ("std delay", std_delay),
        ("max delay sec", max_delay),
        ("max delay per", max_delay_per),
        ("min delay sec", min_delay),
        ("min delay per", min_delay_per),
        ("av price saving", av_saving),
        ("max price saving", max_saving),
        ("min price saving", min_saving),
        ("av pu advance sec", av_adv),
        ("av pu advance per", av_adv_per),
        ("std pu advance", std_adv),
        ("max pu advance sec", max_adv),
        ("max pu advance per", max_adv_per),
        ("min pu advance sec", min_adv),
        ("min pu advance per", min_adv_per)]

/-- A concrete travel-time function used only to instantiate theorems. -/
def ttConst : ℚ × ℚ → ℚ × ℚ → ℚ := fun _ _ => 100

/-- A concrete parsed row used only to instantiate theorems. -/
def row0 : Row := ⟨1000, (1, 2), (3, 4)⟩

/-! ## Helper lemmas -/

lemma byPUStart_trans (a b c : Req) (hab : byPUStart a b = true)
    (hbc : byPUStart b c = true) : byPUStart a c = true := by
  simp only [byPUStart, decide_eq_true_eq] at *
  exact le_trans hab hbc

lemma byPUStart_total (a b : Req) : (byPUStart a b || byPUStart b a) = true := by
  simp only [byPUStart, Bool.or_eq_true, decide_eq_true_eq]
  exact le_total a.PU_window.1 b.PU_window.1

/-- The loop output is exactly the kept prefix rows, mapped to requests. -/
lemma readLoop_eq_filter_map (time_window : ℚ) (tt : ℚ × ℚ → ℚ × ℚ → ℚ) :
    ∀ (rows : List Row) (size : ℕ),
      readLoop time_window tt rows size =
        ((rows.take size).filter (keepRow tt)).map (mkRequest time_window tt) := by
  intro rows
  induction rows with
  | nil => intro size; cases size <;> simp [readLoop]
  | cons r rs ih =>
    intro size
    cases size with
    | zero => simp [readLoop]
    | succ n =>
      by_cases h : keepRow tt r
      · simp [readLoop, h, List.filter_cons, ih n]
      · simp [readLoop, h, List.filter_cons, ih n]

/-- Every element of the loop output arises as `mkRequest` of a kept row. -/
lemma readLoop_mem (time_window : ℚ) (tt : ℚ × ℚ → ℚ × ℚ → ℚ)
    (rows : List Row) (size : ℕ) (req : Req)
    (h : req ∈ readLoop time_window tt rows size) :
    ∃ r : Row, r ∈ rows ∧ keepRow tt r = true ∧ req = mkRequest time_window tt r := by
  rw [readLoop_eq_filter_map] at h
  obtain ⟨r, hr, rfl⟩ := List.mem_map.mp h
  exact ⟨r, List.mem_of_mem_take (List.mem_of_mem_filter hr),
    List.of_mem_filter hr, rfl⟩

/-- Every request in the loop output has its requested pickup time
(`PU_window.2`) equal to the window start plus `time_window * 60`. -/
lemma readLoop_window_width (time_window : ℚ) (tt : ℚ × ℚ → ℚ × ℚ → ℚ)
    (rows : List Row) (size : ℕ) (req : Req)
    (h : req ∈ readLoop time_window tt rows size) :
    req.PU_window.2 = req.PU_window.1 + time_window * 60 := by
  obtain ⟨r, -, -, rfl⟩ := readLoop_mem _ _ _ _ _ h
  simp [mkRequest]

/-- Propositional reading of `null_coordinates`. -/
lemma null_coordinates_iff (r : Row) :
    null_coordinates r = true ↔
      (r.PU_coordinates.1 = 0 ∨ r.PU_coordinates.2 = 0 ∨
       r.DO_coordinates.1 = 0 ∨ r.DO_coordinates.2 = 0) := by
  simp [null_coordinates, or_assoc]

/-- Propositional reading of `coordinates_too_far`; `12*3600 = 43200`. -/
lemma coordinates_too_far_iff (tt : ℚ × ℚ → ℚ × ℚ → ℚ) (r : Row) :
    coordinates_too_far tt r = true ↔
      DO_datetime tt r - r.PU_datetime > 43200 := by
  simp only [coordinates_too_far, decide_eq_true_eq]
  norm_num

/-- Propositional reading of `same_DO_PU_coordinates`. -/
lemma same_DO_PU_coordinates_iff (r : Row) :
    same_DO_PU_coordinates r = true ↔ r.PU_coordinates = r.DO_coordinates := by
  simp [same_DO_PU_coordinates]

lemma graspStep_elite_obj (s : GState) (o : ℕ) :
    (graspStep s o).elite_obj = s.elite_obj := by
  cases hs : s.elite with
  | none => simp [graspStep, hs]
  | some e => simp only [graspStep, hs]; split <;> rfl

lemma graspStep_of_isSome (s : GState) (o : ℕ) (hs : s.elite.isSome) :
    (graspStep s o).iters = s.iters + 1 ∧ (graspStep s o).elite.isSome := by
  obtain ⟨e, he⟩ := Option.isSome_iff_exists.mp hs
  simp only [graspStep, he]
  split <;> simp [he]

/-- While an elite exists and `elite_obj = 0`, every remaining supplied
iteration runs (the loop condition never becomes false when
`nb_requests ≠ 0`) and each one increments the counter. -/
lemma graspLoop_iters_of_isSome (nb_requests : ℤ) (h : nb_requests ≠ 0) :
    ∀ (objs : List ℕ) (s : GState), s.elite_obj = 0 → s.elite.isSome →
      (graspLoop nb_requests s objs).1.iters = s.iters + objs.length := by
  intro objs
  induction objs with
  | nil => intro s h0 _; simp [graspLoop]
  | cons o os ih =>
    intro s h0 hs
    have hcond : nb_requests - (s.elite_obj : ℤ) ≠ 0 := by
      rw [h0]; simpa using h
    rw [graspLoop, if_pos hcond]
    obtain ⟨hit, hsome⟩ := graspStep_of_isSome s o hs
    rw [ih (graspStep s o) (by rw [graspStep_elite_obj, h0]) hsome, hit]
    simp [List.length_cons]
    omega

/-! ## Claims -/

/-- C5: `read_dataset` keeps a CSV row if and only if none of the following
hold: some pickup or dropoff coordinate equals 0, the pickup and dropoff
coordinates are identical, or the direct trip duration (dropoff time minus
pickup time) exceeds 12 hours (43200 seconds); every kept row among the
first `size` rows is appended (as its request record) to the dataset the
function returns. -/
theorem read_dataset_keep_iff (time_window : ℚ) (tt : ℚ × ℚ → ℚ × ℚ → ℚ)
    (rows : List Row) (size : ℕ) :
    (readLoop time_window tt rows size =
      ((rows.take size).filter (keepRow tt)).map (mkRequest time_window tt))
    ∧ (∀ r : Row, keepRow tt r = true ↔
        ¬ ((r.PU_coordinates.1 = 0 ∨ r.PU_coordinates.2 = 0 ∨
            r.DO_coordinates.1 = 0 ∨ r.DO_coordinates.2 = 0) ∨
           r.PU_coordinates = r.DO_coordinates ∨
           DO_datetime tt r - r.PU_datetime > 43200))
    ∧ (∀ req : Req, req ∈ read_dataset time_window tt rows size ↔
        req ∈ readLoop time_window tt rows size) := by
  refine ⟨readLoop_eq_filter_map _ _ rows size, ?_, ?_⟩
  · intro r
    simp only [keepRow, Bool.and_eq_true, Bool.not_eq_true',
      ← Bool.not_eq_true, null_coordinates_iff, coordinates_too_far_iff,
      same_DO_PU_coordinates_iff]
    tauto
  · intro req
    rw [read_dataset, List.mem_mergeSort]

/-- C6: for every row kept by `read_dataset`, the produced request record
has pickup window `[PU_datetime - 60*time_window, PU_datetime]` and dropoff
window `[arrival, arrival + 60*time_window]`, where the arrival time is the
requested pickup time plus the direct travel time between the pickup and
dropoff coordinates. -/
theorem read_dataset_windows (time_window : ℚ) (tt : ℚ × ℚ → ℚ × ℚ → ℚ)
    (rows : List Row) (size : ℕ) (req : Req)
    (h : req ∈ read_dataset time_window tt rows size) :
    ∃ r : Row, r ∈ rows ∧ keepRow tt r = true ∧
      req = mkRequest time_window tt r ∧
      req.PU_window = (r.PU_datetime - time_window * 60, r.PU_datetime) ∧
      req.DO_window = (r.PU_datetime + tt r.PU_coordinates r.DO_coordinates,
        r.PU_datetime + tt r.PU_coordinates r.DO_coordinates + time_window * 60) := by
  rw [read_dataset, List.mem_mergeSort] at h
  obtain ⟨r, hr, hk, rfl⟩ := readLoop_mem _ _ _ _ _ h
  exact ⟨r, hr, hk, rfl, rfl, rfl⟩

/-- C6 witness: the theorem instantiated on a concrete one-row dataset. -/
theorem read_dataset_windows_witness :
    (mkRequest 15 ttConst row0 ∈ read_dataset 15 ttConst [row0] 1) ∧
    ∃ r : Row, r ∈ [row0] ∧ keepRow ttConst r = true ∧
      mkRequest 15 ttConst row0 = mkRequest 15 ttConst r ∧
      (mkRequest 15 ttConst row0).PU_window =
        (r.PU_datetime - 15 * 60, r.PU_datetime) ∧
      (mkRequest 15 ttConst row0).DO_window =
        (r.PU_datetime + ttConst r.PU_coordinates r.DO_coordinates,
         r.PU_datetime + ttConst r.PU_coordinates r.DO_coordinates + 15 * 60) := by
  have hloop : readLoop 15 ttConst [row0] 1 = [mkRequest 15 ttConst row0] := by
    norm_num [readLoop, keepRow, null_coordinates, coordinates_too_far,
      same_DO_PU_coordinates, DO_datetime, ttConst, row0]
  have hmem : mkRequest 15 ttConst row0 ∈ read_dataset 15 ttConst [row0] 1 := by
    rw [read_dataset, List.mem_mergeSort, hloop]
    exact List.mem_singleton.mpr rfl
  exact ⟨hmem, read_dataset_windows 15 ttConst [row0] 1 _ hmem⟩

/-- C7: the request list returned by `read_dataset` is sorted by pickup
time: for every pair of positions `i < j`, the pickup-window start of entry
`i` is at most that of entry `j`, and equivalently so is the requested
pickup time (`PU_window.2`). -/
theorem read_dataset_sorted (time_window : ℚ) (tt : ℚ × ℚ → ℚ × ℚ → ℚ)
    (rows : List Row) (size : ℕ) :
    List.Pairwise
      (fun a b => a.PU_window.1 ≤ b.PU_window.1 ∧ a.PU_window.2 ≤ b.PU_window.2)
      (read_dataset time_window tt rows size) := by
  rw [read_dataset]
  have hsorted :=
    List.sorted_mergeSort byPUStart_trans byPUStart_total
      (readLoop time_window tt rows size)
  refine List.Pairwise.imp_of_mem ?_ hsorted
  intro a b ha hb hab
  rw [List.mem_mergeSort] at ha hb
  have hwa := readLoop_window_width time_window tt rows size a ha
  have hwb := readLoop_window_width time_window tt rows size b hb
  simp only [byPUStart, decide_eq_true_eq] at hab
  exact ⟨hab, by rw [hwa, hwb]; exact add_le_add_right hab _⟩

/-- C1 (code bug): the elite objective is not monotone across iterations.
With 9 requests, a first iteration producing objective 5 promotes an elite
with objective 5; a second iteration producing objective 1 then replaces
it, because line 201 compares against the variable `elite_obj`, which is
initialised to 0 at line 160 and never updated, so any positive objective
wins.  The elite objective drops from 5 to 1. -/
theorem elite_objective_not_monotonic :
    ((graspLoop 9 initGState [5]).1.elite = some 5) ∧
    ((graspLoop 9 initGState [5, 1]).1.elite = some 1) :=
  ⟨rfl, rfl⟩

/-- C2 (code bug): when the time budget expires before any iteration has
completed, `run_GRASP_heuristic` does not return an empty result: the
`except` handler evaluates `solution.compute_obj >
elite_solution.compute_obj` with `elite_solution = None`, raising
`AttributeError` (or `NameError` when `solution` is not even bound yet). -/
theorem run_GRASP_zero_progress_crashes :
    run_GRASP_heuristic 1 [] none = .error .nameError ∧
    run_GRASP_heuristic 1 [] (some 0) = .error .attributeError :=
  ⟨rfl, rfl⟩

/-- C3 (code bug): promoting an elite whose objective equals the request
count does not stop the loop.  With 2 requests, the first iteration
promotes an elite with objective 2; at the next check the condition
`nb_requests - elite_obj is not 0` evaluates `2 - 0 ≠ 0` — `elite_obj` is
never updated — so the loop does not exit (second conjunct: the run ends
by interrupt, not by the condition) and a further iteration runs (third
conjunct). -/
theorem perfect_elite_does_not_stop_loop :
    ((graspLoop 2 initGState [2]).1.elite = some 2) ∧
    ((graspLoop 2 initGState [2]).2 = false) ∧
    ((graspLoop 2 initGState [2, 1]).1.iters = 1) :=
  ⟨rfl, rfl, rfl⟩

/-- C9: `GRASP_iterations` is incremented only in loop iterations where an
elite already existed (lines 203 vs 204-205), so after `N` fully completed
iterations the reported count is `N - 1` (truncated at zero; in particular
`0` after exactly one completed iteration). -/
theorem GRASP_iterations_reported (nb_requests : ℤ) (objs : List ℕ)
    (h : nb_requests ≠ 0) :
    (graspLoop nb_requests initGState objs).1.iters = objs.length - 1 := by
  cases objs with
  | nil => simp [graspLoop, initGState]
  | cons o os =>
    have hcond : nb_requests - ((initGState.elite_obj : ℕ) : ℤ) ≠ 0 := by
      simpa [initGState] using h
    rw [graspLoop, if_pos hcond]
    have hstep : graspStep initGState o = ⟨some o, 0, 0, some o⟩ := rfl
    rw [graspLoop_iters_of_isSome nb_requests h os (graspStep initGState o)
      (by rw [hstep]) (by rw [hstep]; rfl)]
    simp [hstep]

/-- C9 witness: three completed iterations with 3 requests report 2. -/
theorem GRASP_iterations_reported_witness :
    (3 : ℤ) ≠ 0 ∧
    (graspLoop 3 initGState [1, 2, 2]).1.iters = [1, 2, 2].length - 1 :=
  ⟨by decide, GRASP_iterations_reported 3 [1, 2, 2] (by decide)⟩

/-- C8 counterexample: the default configuration produced by `setup` does
not satisfy `alpha > 1` — `--alpha` defaults to the float `0.8`. -/
theorem default_alpha_not_gt_one : ¬ (setup_defaults.alpha > 1) := by
  norm_num [setup_defaults, float_0_8]

/-- C8 (amended): in the default configuration produced by `setup`, the
option `alpha` is the float `0.8` — documented in `setup` as the fare
factor ("Customer are paying less than an individual ride times alpha") —
and in particular it is strictly smaller than 1, not greater. -/
theorem default_alpha_lt_one :
    setup_defaults.alpha = float_0_8 ∧ setup_defaults.alpha < 1 :=
  ⟨rfl, by norm_num [setup_defaults, float_0_8]⟩

/-- C10: whenever `specs["GRASP iterations"]` is 0 and the earlier
statistics of `print_stats` are well defined (nonzero request count,
nonempty statistic lists, at least two data points where `stdev` is
taken), `print_stats` raises an unhandled `ZeroDivisionError`: the
division `specs["time"][1] / specs["GRASP iterations"]` appended as
`"av time it"` at line 289 lies outside the `try/except` that guards the
average-computation-time print of line 283, so the zero-iteration case is
only partially protected. -/
theorem print_stats_zero_iterations_raises
    (nb obj : ℕ) (t : ℚ × ℚ)
    (i0 : ℚ) (irest : List ℚ) (c0 : ℚ) (crest : List ℚ)
    (d0 d1 : ℚ) (drest : List ℚ) (dp0 : ℚ) (dprest : List ℚ)
    (s0 : ℚ) (srest : List ℚ) (e0 e1 : ℚ) (erest : List ℚ)
    (ep0 : ℚ) (eprest : List ℚ)
    (hnb : nb ≠ 0) :
    print_stats ⟨nb, obj, t, 0, i0 :: irest, c0 :: crest, d0 :: d1 :: drest,
      dp0 :: dprest, s0 :: srest, e0 :: e1 :: erest, ep0 :: eprest⟩ =
      .error .zeroDivisionError := by
  have hnb' : (nb : ℚ) ≠ 0 := Nat.cast_ne_zero.mpr hnb
  simp only [print_stats, pymean, pymax, pymin, pystdev, pydiv, hnb',
    Nat.cast_zero, if_neg hnb', if_pos rfl]
  rfl

/-- C10 witness: a concrete well-formed input with zero iterations. -/
theorem print_stats_zero_iterations_raises_witness :
    (1 : ℕ) ≠ 0 ∧
    print_stats ⟨1, 1, (10, 5), 0, [1], [1], [1, 2], [1], [1], [1, 2], [1]⟩ =
      .error .zeroDivisionError :=
  ⟨by decide,
   print_stats_zero_iterations_raises 1 1 (10, 5) 1 [] 1 [] 1 2 [] 1 [] 1 []
     1 2 [] 1 [] (by decide)⟩

end Taxicoop
